import Mathlib

/-!
Shallow embedding of `src/solana_test_binary_option/src/lib.rs`: a Solana
program implementing a binary (up/down) price-direction bet settled against a
chainlink price feed.  Machine integers (`u32`, `u64`) are modelled as `Nat`
with explicit `% 2^32` / `% 2^64` where the Rust release build wraps; the
`i128 as u64` cast of oracle prices is modelled exactly as `Int.emod` by
`2^64`.  Fallible Rust code returning `Result<_, ProgramError>` is modelled
with `Except ProgramError _`, and in-place mutation of the record
(`&mut BinaryOptionData`) as explicit state passing: each operation returns
the record after the call together with its `Result`.
-/

namespace SolanaBinaryOption

def U32_MOD : Nat := 2 ^ 32

def U64_MOD : Nat := 2 ^ 64

/-- `MATURITY_MARGIN` constant from the source (`const MATURITY_MARGIN: u32 = 5`). -/
def MATURITY_MARGIN : Nat := 5

/-- The persisted record `BinaryOptionData` from the source:
`score: u32, maturity_timestamp: u32, strike_price: u64, is_higher: u8,
is_betting: u8`.  Fields are `Nat`; decoding from bytes only ever produces
in-range values. -/
structure BinaryOptionData where
  score : Nat
  maturity_timestamp : Nat
  strike_price : Nat
  is_higher : Nat
  is_betting : Nat
deriving Repr, DecidableEq

/-- The subset of `solana_program::ProgramError` this program can produce.
`Custom n` carries the numeric code of a `BinaryOptionError` discriminant;
`BorshIoError` stands for the (string-carrying) borsh decode failure. -/
inductive ProgramError where
  | Custom : Nat → ProgramError
  | InvalidAccountData : ProgramError
  | InvalidInstructionData : ProgramError
  | BorshIoError : ProgramError
deriving Repr, DecidableEq

/-- `BinaryOptionError::MaturityNotReached as u32 = 0`, via
`ProgramError::Custom`. -/
def MaturityNotReached : ProgramError := .Custom 0

/-- `BinaryOptionError::MarketPriceNotFound as u32 = 1`. -/
def MarketPriceNotFound : ProgramError := .Custom 1

/-- `BinaryOptionError::NoPosition as u32 = 2` (the spec calls this kind
`NoOpenPosition`). -/
def NoPosition : ProgramError := .Custom 2

/-- The chainlink oracle as consumed by the program: `get_round` answers the
settlement query for a target timestamp with an optional
`Submission(timestamp, price)` pair (price is an `i128`, hence `Int`), and
`get_price` answers the current-price query.  Either call can itself fail
with a `ProgramError`, which the source propagates with `?`. -/
structure PriceOracle where
  get_round : Nat → Except ProgramError (Option (Int × Int))
  get_price : Except ProgramError (Option Int)

/-- The Rust `as u64` cast of an `i128`: the low 64 bits, i.e. the value
modulo `2^64` taken non-negative. -/
def u64_cast (i : Int) : Nat := (i % (U64_MOD : Int)).toNat

/-- `fn settle` from the source: query the oracle round at the recorded
maturity (propagating oracle errors before any mutation); on a present
sample, win iff `is_higher == 0 && strike > settlement` or
`is_higher == 1 && strike < settlement`, adding 1 to the score on a win and
subtracting 1 on a loss (wrapping u32 arithmetic, as in the release build);
on a missing sample subtract 1; in every non-error case clear `is_betting`. -/
def settle (d : BinaryOptionData) (oracle : PriceOracle) :
    BinaryOptionData × Except ProgramError Unit :=
  match oracle.get_round d.maturity_timestamp with
  | .error e => (d, .error e)
  | .ok none =>
      ({ d with score := (d.score + U32_MOD - 1) % U32_MOD, is_betting := 0 },
       .ok ())
  | .ok (some (_, settlement_price)) =>
      if (d.is_higher = 0 ∧ d.strike_price > u64_cast settlement_price)
          ∨ (d.is_higher = 1 ∧ d.strike_price < u64_cast settlement_price) then
        ({ d with score := (d.score + 1) % U32_MOD, is_betting := 0 }, .ok ())
      else
        ({ d with score := (d.score + U32_MOD - 1) % U32_MOD, is_betting := 0 },
         .ok ())

/-- `fn bet` from the source: on an available current price set
`strike_price` to the price cast to `u64`, `maturity_timestamp` to
`current_timestamp + 300` (wrapping u32 addition), `is_higher` to the given
flag and `is_betting` to 1; fail with `MarketPriceNotFound` when the oracle
has no current price, and propagate oracle errors. -/
def bet (d : BinaryOptionData) (is_higher : Nat) (current_timestamp : Nat)
    (oracle : PriceOracle) : BinaryOptionData × Except ProgramError Unit :=
  match oracle.get_price with
  | .error e => (d, .error e)
  | .ok none => (d, .error MarketPriceNotFound)
  | .ok (some current_price) =>
      ({ d with
          strike_price := u64_cast current_price,
          maturity_timestamp := (current_timestamp + 300) % U32_MOD,
          is_higher := is_higher,
          is_betting := 1 }, .ok ())

/-- The command dispatch of `process_instruction`, after account checks and
record/instruction decoding: command 0 settles (rejecting with `NoPosition`
while idle and with `MaturityNotReached` unless
`maturity_timestamp + MATURITY_MARGIN < now` in wrapping u32 arithmetic);
commands 1 and 2 open a long/short position while idle and fail with
`InvalidInstructionData` while a position is open; any other command fails
with `InvalidInstructionData`.  `now` is `clock.unix_timestamp as u32`. -/
def process_command (d : BinaryOptionData) (command : Nat) (now : Nat)
    (oracle : PriceOracle) : BinaryOptionData × Except ProgramError Unit :=
  if command = 0 then
    if d.is_betting = 0 then (d, .error NoPosition)
    else if (d.maturity_timestamp + MATURITY_MARGIN) % U32_MOD < now then
      settle d oracle
    else (d, .error MaturityNotReached)
  else if command = 1 ∨ command = 2 then
    if d.is_betting = 0 then
      bet d (if command = 1 then 1 else 0) now oracle
    else (d, .error .InvalidInstructionData)
  else (d, .error .InvalidInstructionData)

/-- The persistence step of `process_instruction`:
`result.and_then(|_| program_data.serialize(...))` writes the mutated record
back only on `Ok`; on `Err` the account keeps its previous bytes, so the
persisted record is the original one. -/
def persisted_record (d : BinaryOptionData) (command : Nat) (now : Nat)
    (oracle : PriceOracle) : BinaryOptionData :=
  match process_command d command now oracle with
  | (d2, .ok _) => d2
  | (_, .error _) => d

/-- Little-endian base-256 reading of a byte list, as borsh deserializes
fixed-width unsigned integers. -/
def leBytesToNat : List Nat → Nat
  | [] => 0
  | b :: rest => b + 256 * leBytesToNat rest

/-- `BinaryOptionData::try_from_slice` (borsh): read `score: u32`,
`maturity_timestamp: u32`, `strike_price: u64`, `is_higher: u8`,
`is_betting: u8` in order, little-endian, and fail unless the buffer is
consumed exactly — so decoding succeeds iff the buffer is exactly 18 bytes.
Borsh reads a `u8` field as the raw byte: flag bytes are NOT validated to be
0 or 1. -/
def decodeRecord (buf : List Nat) : Except ProgramError BinaryOptionData :=
  if buf.length = 18 then
    .ok { score := leBytesToNat (buf.take 4)
        , maturity_timestamp := leBytesToNat ((buf.drop 4).take 4)
        , strike_price := leBytesToNat ((buf.drop 8).take 8)
        , is_higher := leBytesToNat ((buf.drop 16).take 1)
        , is_betting := leBytesToNat ((buf.drop 17).take 1) }
  else .error .BorshIoError

/-- A deterministic test oracle built from fixed answers, used for concrete
witnesses. -/
def testOracle (round : Option (Int × Int)) (price : Option Int) :
    PriceOracle :=
  ⟨fun _ => .ok round, .ok price⟩

/-- A concrete idle record (`is_betting = 0`) for witnesses. -/
def idleRecord : BinaryOptionData :=
  { score := 5, maturity_timestamp := 0, strike_price := 0, is_higher := 0
  , is_betting := 0 }

/-- A concrete open record (`is_betting = 1`, maturity 1300, strike 100,
betting on higher) for witnesses. -/
def openRecord : BinaryOptionData :=
  { score := 5, maturity_timestamp := 1300, strike_price := 100, is_higher := 1
  , is_betting := 1 }

/-- Whenever `settle` returns an error it has not touched the record: the
only error path is the propagated oracle failure, before any mutation. -/
theorem settle_error_frame (d : BinaryOptionData) (oracle : PriceOracle)
    (e : ProgramError) (h : (settle d oracle).2 = .error e) :
    (settle d oracle).1 = d := by
  rcases hq : oracle.get_round d.maturity_timestamp with e2 | r
  · simp [settle, hq]
  · rcases r with _ | ⟨ts, p⟩
    · simp [settle, hq] at h
    · simp [settle, hq, apply_ite] at h

/-- Whenever `bet` returns an error it has not touched the record. -/
theorem bet_error_frame (d : BinaryOptionData) (flag now : Nat)
    (oracle : PriceOracle) (e : ProgramError)
    (h : (bet d flag now oracle).2 = .error e) :
    (bet d flag now oracle).1 = d := by
  rcases hq : oracle.get_price with e2 | r
  · simp [bet, hq]
  · rcases r with _ | p
    · simp [bet, hq]
    · simp [bet, hq] at h

/-- C8 (confirmed): for every record in the Idle state (`is_betting = 0`),
applying Settle (command 0) fails with the `NoPosition` error (the spec's
`NoOpenPosition`, numeric code Custom 2) and leaves the record unchanged —
the returned record is the input record, hence the persisted bytes are
identical. -/
theorem idle_settle_fails (d : BinaryOptionData) (now : Nat)
    (oracle : PriceOracle) (h : d.is_betting = 0) :
    process_command d 0 now oracle = (d, .error NoPosition) := by
  simp [process_command, h]

/-- Witness for `idle_settle_fails` at a concrete idle record. -/
theorem idle_settle_fails_witness :
    idleRecord.is_betting = 0 ∧
    process_command idleRecord 0 1000 (testOracle none none)
      = (idleRecord, .error NoPosition) :=
  ⟨rfl, idle_settle_fails idleRecord 1000 (testOracle none none) rfl⟩

/-- C1 counterexample: with an Open record of maturity 1300 the claim says
Settle at `now = 1305` performs settlement, but the code's guard is
`maturity_timestamp + MATURITY_MARGIN < now`, which is false at 1305, so the
call fails with `MaturityNotReached`. -/
theorem settle_margin_counterexample :
    process_command openRecord 0 1305 (testOracle (some (1300, 110)) none)
      = (openRecord, .error MaturityNotReached) := rfl

/-- C1 (amended): for every Open record whose `maturity_timestamp + 5` does
not overflow u32, Settle at `now` fails with `MaturityNotReached` exactly
when `now ≤ maturity_timestamp + MATURITY_MARGIN` (i.e. `now` is NOT
strictly greater), and performs settlement exactly when
`now ≥ maturity_timestamp + MATURITY_MARGIN + 1`; with maturity 1300, Settle
at 1305 still fails and Settle at 1306 settles. -/
theorem settle_maturity_guard (d : BinaryOptionData) (now : Nat)
    (oracle : PriceOracle) (hb : d.is_betting ≠ 0)
    (hm : d.maturity_timestamp + MATURITY_MARGIN < U32_MOD) :
    process_command d 0 now oracle
      = if d.maturity_timestamp + MATURITY_MARGIN < now then settle d oracle
        else (d, .error MaturityNotReached) := by
  simp [process_command, hb, Nat.mod_eq_of_lt hm]

/-- Witness for `settle_maturity_guard` at the concrete open record and
`now = 1306` (which settles, since 1305 < 1306). -/
theorem settle_maturity_guard_witness :
    openRecord.is_betting ≠ 0 ∧
    openRecord.maturity_timestamp + MATURITY_MARGIN < U32_MOD ∧
    process_command openRecord 0 1306 (testOracle (some (1300, 110)) none)
      = if openRecord.maturity_timestamp + MATURITY_MARGIN < 1306 then
          settle openRecord (testOracle (some (1300, 110)) none)
        else (openRecord, .error MaturityNotReached) :=
  ⟨by decide, by decide,
    settle_maturity_guard openRecord 1306 (testOracle (some (1300, 110)) none)
      (by decide) (by decide)⟩

/-- C7 counterexample: while Open, OpenLong fails with
`InvalidInstructionData` — the very same error an unknown command (here 99)
produces, not a distinct `PositionAlreadyOpen` code. -/
theorem open_position_error_counterexample :
    process_command openRecord 1 1000 (testOracle none none)
      = (openRecord, .error .InvalidInstructionData) ∧
    process_command openRecord 99 1000 (testOracle none none)
      = (openRecord, .error .InvalidInstructionData) :=
  ⟨rfl, rfl⟩

/-- C7 (amended): for every record in the Open state, applying OpenLong or
OpenShort fails and leaves the record unchanged — but the error is
`ProgramError::InvalidInstructionData`, the same error used for unknown
commands, not a distinct `PositionAlreadyOpen` code. -/
theorem open_while_open_fails (d : BinaryOptionData) (cmd now : Nat)
    (oracle : PriceOracle) (hb : d.is_betting ≠ 0) (hc : cmd = 1 ∨ cmd = 2) :
    process_command d cmd now oracle = (d, .error .InvalidInstructionData) := by
  rcases hc with rfl | rfl <;> simp [process_command, hb]

/-- Witness for `open_while_open_fails` at the concrete open record. -/
theorem open_while_open_fails_witness :
    openRecord.is_betting ≠ 0 ∧ ((1 : Nat) = 1 ∨ (1 : Nat) = 2) ∧
    process_command openRecord 1 1000 (testOracle none none)
      = (openRecord, .error .InvalidInstructionData) :=
  ⟨by decide, Or.inl rfl,
    open_while_open_fails openRecord 1 1000 (testOracle none none)
      (by decide) (Or.inl rfl)⟩

/-- C6 (confirmed): whenever the dispatch returns an error, the in-memory
record was never mutated (it equals the starting record) and the persisted
record is the starting record — the source serializes the record back only
on `Ok` (`result.and_then(|_| serialize ...)`), and on every error path the
mutation has not happened.  Record equality gives byte-for-byte equality of
the persisted bytes since encoding is deterministic. -/
theorem error_leaves_record_unchanged (d : BinaryOptionData)
    (command now : Nat) (oracle : PriceOracle) (e : ProgramError)
    (h : (process_command d command now oracle).2 = .error e) :
    (process_command d command now oracle).1 = d ∧
    persisted_record d command now oracle = d := by
  have h1 : (process_command d command now oracle).1 = d := by
    unfold process_command at h ⊢
    split_ifs at h ⊢ <;>
      first
        | rfl
        | exact settle_error_frame d oracle e h
        | exact bet_error_frame d 1 now oracle e h
        | exact bet_error_frame d 0 now oracle e h
  refine ⟨h1, ?_⟩
  unfold persisted_record
  rcases hpc : process_command d command now oracle with ⟨d2, r⟩
  rw [hpc] at h
  rcases r with e2 | u
  · rfl
  · simp at h

/-- Witness for `error_leaves_record_unchanged`: Settle on an idle record
errors with `NoPosition` and both the in-memory and persisted record are
unchanged. -/
theorem error_leaves_record_unchanged_witness :
    (process_command idleRecord 0 1000 (testOracle none none)).2
      = .error NoPosition ∧
    ((process_command idleRecord 0 1000 (testOracle none none)).1 = idleRecord ∧
      persisted_record idleRecord 0 1000 (testOracle none none) = idleRecord) :=
  ⟨rfl,
    error_leaves_record_unchanged idleRecord 0 1000 (testOracle none none)
      NoPosition rfl⟩

/-- The wrapping u32 decrement `score -= 1` equals the plain decrement as
long as the score is in `1 .. 2^32 - 1`. -/
theorem score_dec_mod (s : Nat) (h0 : 0 < s) (hU : s < U32_MOD) :
    (s + U32_MOD - 1) % U32_MOD = s - 1 := by
  have h1 : s + U32_MOD - 1 = (s - 1) + U32_MOD := by omega
  rw [h1, Nat.add_mod_right]
  exact Nat.mod_eq_of_lt (by omega)

/-- C3 (confirmed): settling a matured Open record with an available oracle
sample wins iff `(is_higher ∧ settlement > strike) ∨ (¬is_higher ∧
settlement < strike)` under strict comparisons (the settlement price being
the sample price cast to u64); the score gains 1 on a win and loses 1 on a
loss, `is_betting` is cleared in both cases, and a settlement price equal to
the strike price is a loss under both directions.  The score bounds keep the
wrapping u32 arithmetic in its plain-integer range (the `score = 0` wrap is
claim C2). -/
theorem settle_outcome (d : BinaryOptionData) (oracle : PriceOracle)
    (ts p : Int)
    (hr : oracle.get_round d.maturity_timestamp = .ok (some (ts, p)))
    (hflag : d.is_higher = 0 ∨ d.is_higher = 1)
    (hs0 : 0 < d.score) (hs1 : d.score + 1 < U32_MOD) :
    settle d oracle
      = ({ d with
            score :=
              if (d.is_higher = 1 ∧ d.strike_price < u64_cast p)
                  ∨ (d.is_higher = 0 ∧ u64_cast p < d.strike_price) then
                d.score + 1
              else d.score - 1
          , is_betting := 0 }, .ok ())
    ∧ (u64_cast p = d.strike_price →
        settle d oracle
          = ({ d with score := d.score - 1, is_betting := 0 }, .ok ())) := by
  have hwin : (d.score + 1) % U32_MOD = d.score + 1 := Nat.mod_eq_of_lt hs1
  have hloss : (d.score + U32_MOD - 1) % U32_MOD = d.score - 1 :=
    score_dec_mod d.score hs0 (by omega)
  constructor
  · simp only [settle, hr, gt_iff_lt]
    split_ifs with h1 h2 h3
    · rw [hwin]
    · exact absurd h1.symm h2
    · exact absurd h3.symm h1
    · rw [hloss]
  · intro hp
    simp only [settle, hr, gt_iff_lt, hp]
    rw [if_neg (by simp), hloss]

/-- Witness for `settle_outcome`: the open record (strike 100, betting on
higher, score 5) settled against sample price 110 — a win, score 6; the tie
conjunct is vacuous here since 110 ≠ 100. -/
theorem settle_outcome_witness :
    (testOracle (some (1310, 110)) none).get_round openRecord.maturity_timestamp
        = .ok (some (1310, 110)) ∧
    (openRecord.is_higher = 0 ∨ openRecord.is_higher = 1) ∧
    0 < openRecord.score ∧ openRecord.score + 1 < U32_MOD ∧
    (settle openRecord (testOracle (some (1310, 110)) none)
      = ({ openRecord with
            score :=
              if (openRecord.is_higher = 1 ∧ openRecord.strike_price < u64_cast 110)
                  ∨ (openRecord.is_higher = 0 ∧ u64_cast 110 < openRecord.strike_price) then
                openRecord.score + 1
              else openRecord.score - 1
          , is_betting := 0 }, .ok ())
    ∧ (u64_cast 110 = openRecord.strike_price →
        settle openRecord (testOracle (some (1310, 110)) none)
          = ({ openRecord with score := openRecord.score - 1, is_betting := 0 },
             .ok ()))) :=
  ⟨rfl, Or.inr rfl, by decide, by decide,
    settle_outcome openRecord (testOracle (some (1310, 110)) none) 1310 110
      rfl (Or.inr rfl) (by decide) (by decide)⟩

/-- C4 (confirmed): for a matured Open record (command 0, guard passed), an
oracle settlement query answering `none` still makes the whole call succeed
with `Ok`: the score loses 1 and `is_betting` is cleared — a missing
settlement price is scored as a loss, not treated as a failure. -/
theorem missing_sample_scored_as_loss (d : BinaryOptionData) (now : Nat)
    (oracle : PriceOracle) (hb : d.is_betting ≠ 0)
    (hm : (d.maturity_timestamp + MATURITY_MARGIN) % U32_MOD < now)
    (hr : oracle.get_round d.maturity_timestamp = .ok none)
    (hs0 : 0 < d.score) (hsU : d.score < U32_MOD) :
    process_command d 0 now oracle
      = ({ d with score := d.score - 1, is_betting := 0 }, .ok ()) := by
  simp [process_command, hb, hm, settle, hr, score_dec_mod d.score hs0 hsU]

/-- Witness for `missing_sample_scored_as_loss`: the open record settled at
`now = 1306` against an oracle with no settlement sample; the call returns
`Ok` with score 4 and `is_betting = 0`. -/
theorem missing_sample_scored_as_loss_witness :
    openRecord.is_betting ≠ 0 ∧
    (openRecord.maturity_timestamp + MATURITY_MARGIN) % U32_MOD < 1306 ∧
    (testOracle none none).get_round openRecord.maturity_timestamp = .ok none ∧
    0 < openRecord.score ∧ openRecord.score < U32_MOD ∧
    process_command openRecord 0 1306 (testOracle none none)
      = ({ openRecord with score := openRecord.score - 1, is_betting := 0 },
         .ok ()) :=
  ⟨by decide, by decide, rfl, by decide, by decide,
    missing_sample_scored_as_loss openRecord 1306 (testOracle none none)
      (by decide) (by decide) rfl (by decide) (by decide)⟩

/-- C5 (confirmed): opening a position from Idle with an available current
price `p` (here within the u64 range, where the source's `as u64` cast is
the identity) succeeds and sets `strike_price := p`,
`maturity_timestamp := now + 300`, `is_higher := 1` exactly for OpenLong
(command 1) and `0` for OpenShort (command 2), and `is_betting := 1`,
leaving `score` (and nothing else) untouched. -/
theorem bet_opens_position (d : BinaryOptionData) (cmd now : Nat)
    (oracle : PriceOracle) (p : Int) (hb : d.is_betting = 0)
    (hc : cmd = 1 ∨ cmd = 2) (hp : oracle.get_price = .ok (some p))
    (hnow : now + 300 < U32_MOD)
    (hp0 : 0 ≤ p) (hp64 : p < (U64_MOD : Int)) :
    process_command d cmd now oracle
      = ({ d with
            strike_price := p.toNat,
            maturity_timestamp := now + 300,
            is_higher := if cmd = 1 then 1 else 0,
            is_betting := 1 }, .ok ()) := by
  have hcast : u64_cast p = p.toNat := by
    unfold u64_cast
    rw [Int.emod_eq_of_lt hp0 hp64]
  rcases hc with rfl | rfl <;>
    simp [process_command, hb, bet, hp, hcast, Nat.mod_eq_of_lt hnow]

/-- Witness for `bet_opens_position`: the spec's concrete example — Idle
record, current price 100, `now = 1000`, OpenLong — yields `is_betting = 1`,
`is_higher = 1`, `strike_price = 100`, `maturity_timestamp = 1300`. -/
theorem bet_opens_position_witness :
    idleRecord.is_betting = 0 ∧ ((1 : Nat) = 1 ∨ (1 : Nat) = 2) ∧
    (testOracle none (some 100)).get_price = .ok (some 100) ∧
    1000 + 300 < U32_MOD ∧ (0 : Int) ≤ 100 ∧ (100 : Int) < (U64_MOD : Int) ∧
    process_command idleRecord 1 1000 (testOracle none (some 100))
      = ({ idleRecord with
            strike_price := (100 : Int).toNat,
            maturity_timestamp := 1300,
            is_higher := if (1 : Nat) = 1 then 1 else 0,
            is_betting := 1 }, .ok ()) :=
  ⟨rfl, Or.inl rfl, rfl, by decide, by decide, by decide,
    bet_opens_position idleRecord 1 1000 (testOracle none (some 100)) 100
      rfl (Or.inl rfl) rfl (by decide) (by decide) (by decide)⟩

/-- An Open record with score 0, used to exhibit the u32 score underflow. -/
def zeroScoreOpenRecord : BinaryOptionData :=
  { score := 0, maturity_timestamp := 1300, strike_price := 100, is_higher := 1
  , is_betting := 1 }

/-- C2 (code bug): settling a matured Open record with score 0 as a loss
(here a tie, settlement price 100 = strike price 100) wraps the u32 score to
`2^32 - 1 = 4294967295` — precisely the silent wrap the invariant forbids.
The source performs `score -= 1` with no floor check, which wraps in the
on-chain release build. -/
theorem score_underflow_wraps :
    process_command zeroScoreOpenRecord 0 1306 (testOracle (some (1306, 100)) none)
      = ({ zeroScoreOpenRecord with score := U32_MOD - 1, is_betting := 0 },
         .ok ())
    ∧ U32_MOD - 1 = 4294967295 :=
  ⟨rfl, rfl⟩

/-- An 18-byte record buffer whose `is_higher` flag byte (offset 16) is 2 —
out of range for a boolean. -/
def badFlagBuffer : List Nat :=
  [0, 0, 0, 0, 0, 0, 0, 0, 0, 0, 0, 0, 0, 0, 0, 0, 2, 0]

/-- C9 counterexample: the borsh decode accepts an 18-byte buffer whose
`is_higher` flag byte is 2 (neither 0 nor 1) — it succeeds instead of
failing with `MalformedRecord`, because borsh reads a `u8` field as the raw
byte with no range check. -/
theorem decode_accepts_bad_flag :
    badFlagBuffer.length = 18 ∧
    decodeRecord badFlagBuffer
      = .ok { score := 0, maturity_timestamp := 0, strike_price := 0
            , is_higher := 2, is_betting := 0 } :=
  ⟨rfl, rfl⟩

/-- C9 (amended): decoding a persisted record buffer fails (with the borsh
I/O error) exactly when the buffer is not the 18-byte fixed layout — shorter
or longer buffers are rejected, but flag bytes are NOT validated: any byte
value 0–255 is accepted for `is_higher` and `is_betting`. -/
theorem decode_ok_iff_length (buf : List Nat) :
    ((∃ r, decodeRecord buf = .ok r) ↔ buf.length = 18)
    ∧ (decodeRecord buf = .error .BorshIoError ↔ buf.length ≠ 18) := by
  by_cases h : buf.length = 18 <;> simp [decodeRecord, h]

/-- An Open record whose maturity sits at the top of the u32 range, so that
`maturity_timestamp + MATURITY_MARGIN` overflows. -/
def farFutureRecord : BinaryOptionData :=
  { score := 0, maturity_timestamp := U32_MOD - 1, strike_price := 100
  , is_higher := 1, is_betting := 1 }

/-- C10 (confirmed): the maturity computations wrap in u32 arithmetic with
no overflow guard.  When `maturity_timestamp + MATURITY_MARGIN` overflows,
the guard compares `now` against the wrapped value, which lands below
`MATURITY_MARGIN`, so the far-future position is already settleable at tiny
`now`; and when `now + 300` overflows, a new bet records the wrapped
maturity `now + 300 - 2^32`, which lies in the past (strictly below `now`). -/
theorem maturity_arithmetic_wraps (d d2 : BinaryOptionData)
    (oracle oracle2 : PriceOracle) (now betNow : Nat) (p : Int)
    (hb : d.is_betting ≠ 0) (hmR : d.maturity_timestamp < U32_MOD)
    (hov : U32_MOD ≤ d.maturity_timestamp + MATURITY_MARGIN)
    (hnow : (d.maturity_timestamp + MATURITY_MARGIN) % U32_MOD < now)
    (hb2 : d2.is_betting = 0) (hbn : betNow < U32_MOD)
    (hbov : U32_MOD ≤ betNow + 300)
    (hp : oracle2.get_price = .ok (some p)) :
    (d.maturity_timestamp + MATURITY_MARGIN) % U32_MOD < MATURITY_MARGIN
    ∧ process_command d 0 now oracle = settle d oracle
    ∧ (process_command d2 1 betNow oracle2).1.maturity_timestamp
        = betNow + 300 - U32_MOD
    ∧ betNow + 300 - U32_MOD < betNow := by
  have hX : (600 : Nat) < U32_MOD := by decide
  have hmod : (d.maturity_timestamp + MATURITY_MARGIN) % U32_MOD
      = d.maturity_timestamp + MATURITY_MARGIN - U32_MOD := by
    rw [Nat.mod_eq_sub_mod hov]
    exact Nat.mod_eq_of_lt (by unfold MATURITY_MARGIN at *; omega)
  have hmod2 : (betNow + 300) % U32_MOD = betNow + 300 - U32_MOD := by
    rw [Nat.mod_eq_sub_mod hbov]
    exact Nat.mod_eq_of_lt (by omega)
  refine ⟨?_, ?_, ?_, by omega⟩
  · rw [hmod]
    unfold MATURITY_MARGIN at *
    omega
  · simp [process_command, hb, hnow]
  · simp [process_command, hb2, bet, hp, hmod2]

/-- Witness for `maturity_arithmetic_wraps`: maturity `2^32 - 1` makes the
wrapped guard value 4, so Settle at `now = 5` already reaches `settle`; a
bet at `now = 2^32 - 1` records maturity 299, far in the past. -/
theorem maturity_arithmetic_wraps_witness :
    farFutureRecord.is_betting ≠ 0 ∧
    farFutureRecord.maturity_timestamp < U32_MOD ∧
    U32_MOD ≤ farFutureRecord.maturity_timestamp + MATURITY_MARGIN ∧
    (farFutureRecord.maturity_timestamp + MATURITY_MARGIN) % U32_MOD < 5 ∧
    idleRecord.is_betting = 0 ∧ U32_MOD - 1 < U32_MOD ∧
    U32_MOD ≤ (U32_MOD - 1) + 300 ∧
    (testOracle none (some 100)).get_price = .ok (some 100) ∧
    ((farFutureRecord.maturity_timestamp + MATURITY_MARGIN) % U32_MOD
        < MATURITY_MARGIN
    ∧ process_command farFutureRecord 0 5 (testOracle (some (0, 100)) none)
        = settle farFutureRecord (testOracle (some (0, 100)) none)
    ∧ (process_command idleRecord 1 (U32_MOD - 1)
          (testOracle none (some 100))).1.maturity_timestamp
        = (U32_MOD - 1) + 300 - U32_MOD
    ∧ (U32_MOD - 1) + 300 - U32_MOD < U32_MOD - 1) :=
  ⟨by decide, by decide, by decide, by decide, rfl, by decide, by decide, rfl,
    maturity_arithmetic_wraps farFutureRecord idleRecord
      (testOracle (some (0, 100)) none) (testOracle none (some 100))
      5 (U32_MOD - 1) 100
      (by decide) (by decide) (by decide) (by decide) rfl (by decide)
      (by decide) rfl⟩

end SolanaBinaryOption
